import Mathlib

set_option maxRecDepth 8000

/-!
Shallow embedding of the HedgeAI backend (rakeshponnala/HedgeAI).

The embedded code:
* `src/backend/app/services/ticker_service.py` — the company-name → ticker
  resolution pipeline (`COMPANY_TO_TICKER`, `TickerService.resolve_ticker`,
  `TickerService._ai_lookup_ticker`).
* `src/backend/app/services/analysis_service.py` —
  `AnalysisService._extract_rating`.
* `src/backend/app/api/routes.py` — the ticker-length validation of the
  `analyze_stock` endpoint.

Modelling conventions:
* Python strings are Lean `String`s.  `str.strip` / `str.lower` / `str.upper`
  are re-implemented structurally on `List Char` (`pyStrip`, `pyLower`,
  `pyUpper`) so that concrete instances reduce in the kernel; they agree with
  Python on ASCII data (Python additionally lowers/uppers and strips some
  non-ASCII code points, which no string in the repository or in the claims
  uses).
* The external AI provider (an Anthropic chat call) is a value of type
  `Except Unit String`: `Except.error ()` is any raised exception
  (network/timeout/malformed response), `Except.ok raw` is the raw text
  `message.content[0].text` of a successful call.
* `difflib.get_close_matches(word, keys, n=1, cutoff=0.8)` (Python stdlib,
  called at ticker_service.py:214) is embedded with its published selection
  logic: filter the candidates whose `real_quick_ratio`, `quick_ratio` and
  `ratio` all reach the cutoff, then `heapq.nlargest(1, ...)` on
  `(score, candidate)` pairs, which is the maximum in the lexicographic order
  on pairs.  The two quick ratios have closed formulas, embedded below;
  `SequenceMatcher.ratio` itself is kept as a parameter
  `ratio : String → String → ℚ` (its float value never decides any claim,
  and every theorem below holds for an arbitrary ratio function).
  Scores are modelled as exact rationals.
-/

/-- Which strategy of the resolver produced the ticker (spec §3,
`ResolutionResult.method`); in the source, which `return` statement of
`TickerService.resolve_ticker` executed. -/
inductive Method : Type where
  | EXACT
  | FUZZY
  | AI
  | PASSTHROUGH
deriving DecidableEq

/-- Python `str.strip()`: drop leading and trailing whitespace
(ticker_service.py:204 and 233, analysis code).  ASCII whitespace only. -/
def pyStrip (s : String) : String :=
  ⟨((s.data.dropWhile Char.isWhitespace).reverse.dropWhile Char.isWhitespace).reverse⟩

/-- Python `str.lower()` (ASCII). -/
def pyLower (s : String) : String :=
  ⟨s.data.map Char.toLower⟩

/-- Python `str.upper()` (ASCII). -/
def pyUpper (s : String) : String :=
  ⟨s.data.map Char.toUpper⟩

/-- `COMPANY_TO_TICKER`, transcribed pair by pair from
ticker_service.py lines 13–185.  The Python value is a `dict` literal; the key
`"netflix"` is written twice there (lines 22 and 108), both times with value
`"NFLX"`, so first-match lookup on this association list agrees with Python
dict lookup on every key. -/
def COMPANY_TO_TICKER : List (String × String) := [
  ("google", "GOOGL"),
  ("alphabet", "GOOGL"),
  ("apple", "AAPL"),
  ("microsoft", "MSFT"),
  ("amazon", "AMZN"),
  ("meta", "META"),
  ("facebook", "META"),
  ("netflix", "NFLX"),
  ("nvidia", "NVDA"),
  ("nvdia", "NVDA"),
  ("nviida", "NVDA"),
  ("nvida", "NVDA"),
  ("tesla", "TSLA"),
  ("telsa", "TSLA"),
  ("intel", "INTC"),
  ("amd", "AMD"),
  ("ibm", "IBM"),
  ("oracle", "ORCL"),
  ("salesforce", "CRM"),
  ("adobe", "ADBE"),
  ("cisco", "CSCO"),
  ("qualcomm", "QCOM"),
  ("broadcom", "AVGO"),
  ("paypal", "PYPL"),
  ("uber", "UBER"),
  ("lyft", "LYFT"),
  ("airbnb", "ABNB"),
  ("spotify", "SPOT"),
  ("snap", "SNAP"),
  ("snapchat", "SNAP"),
  ("twitter", "X"),
  ("x", "X"),
  ("pinterest", "PINS"),
  ("zoom", "ZM"),
  ("shopify", "SHOP"),
  ("square", "SQ"),
  ("block", "SQ"),
  ("palantir", "PLTR"),
  ("snowflake", "SNOW"),
  ("crowdstrike", "CRWD"),
  ("datadog", "DDOG"),
  ("servicenow", "NOW"),
  ("workday", "WDAY"),
  ("twilio", "TWLO"),
  ("okta", "OKTA"),
  ("splunk", "SPLK"),
  ("mongodb", "MDB"),
  ("elastic", "ESTC"),
  ("cloudflare", "NET"),
  ("docusign", "DOCU"),
  ("dropbox", "DBX"),
  ("roblox", "RBLX"),
  ("unity", "U"),
  ("coinbase", "COIN"),
  ("robinhood", "HOOD"),
  ("jpmorgan", "JPM"),
  ("jp morgan", "JPM"),
  ("chase", "JPM"),
  ("bank of america", "BAC"),
  ("bofa", "BAC"),
  ("wells fargo", "WFC"),
  ("citigroup", "C"),
  ("citi", "C"),
  ("goldman sachs", "GS"),
  ("goldman", "GS"),
  ("morgan stanley", "MS"),
  ("blackrock", "BLK"),
  ("charles schwab", "SCHW"),
  ("schwab", "SCHW"),
  ("visa", "V"),
  ("mastercard", "MA"),
  ("american express", "AXP"),
  ("amex", "AXP"),
  ("berkshire hathaway", "BRK-B"),
  ("berkshire", "BRK-B"),
  ("walmart", "WMT"),
  ("target", "TGT"),
  ("costco", "COST"),
  ("home depot", "HD"),
  ("lowes", "LOW"),
  ("nike", "NKE"),
  ("starbucks", "SBUX"),
  ("mcdonalds", "MCD"),
  ("coca cola", "KO"),
  ("coke", "KO"),
  ("pepsi", "PEP"),
  ("pepsico", "PEP"),
  ("disney", "DIS"),
  ("walt disney", "DIS"),
  ("netflix", "NFLX"),
  ("comcast", "CMCSA"),
  ("att", "T"),
  ("at&t", "T"),
  ("verizon", "VZ"),
  ("t-mobile", "TMUS"),
  ("johnson & johnson", "JNJ"),
  ("j&j", "JNJ"),
  ("pfizer", "PFE"),
  ("moderna", "MRNA"),
  ("merck", "MRK"),
  ("abbvie", "ABBV"),
  ("eli lilly", "LLY"),
  ("lilly", "LLY"),
  ("bristol myers", "BMY"),
  ("amgen", "AMGN"),
  ("gilead", "GILD"),
  ("regeneron", "REGN"),
  ("unitedhealth", "UNH"),
  ("cvs", "CVS"),
  ("walgreens", "WBA"),
  ("zoetis", "ZTS"),
  ("neurocrine", "NBIX"),
  ("neurocrine biosciences", "NBIX"),
  ("exxon", "XOM"),
  ("exxonmobil", "XOM"),
  ("chevron", "CVX"),
  ("conocophillips", "COP"),
  ("shell", "SHEL"),
  ("bp", "BP"),
  ("boeing", "BA"),
  ("lockheed martin", "LMT"),
  ("lockheed", "LMT"),
  ("raytheon", "RTX"),
  ("general electric", "GE"),
  ("ge", "GE"),
  ("3m", "MMM"),
  ("caterpillar", "CAT"),
  ("deere", "DE"),
  ("john deere", "DE"),
  ("ford", "F"),
  ("general motors", "GM"),
  ("gm", "GM"),
  ("rivian", "RIVN"),
  ("lucid", "LCID"),
  ("tsmc", "TSM"),
  ("taiwan semiconductor", "TSM"),
  ("asml", "ASML"),
  ("applied materials", "AMAT"),
  ("lam research", "LRCX"),
  ("micron", "MU"),
  ("texas instruments", "TXN"),
  ("marvell", "MRVL"),
  ("arm", "ARM"),
  ("spy", "SPY"),
  ("s&p 500", "SPY"),
  ("s&p", "SPY"),
  ("qqq", "QQQ"),
  ("nasdaq", "QQQ"),
  ("dia", "DIA"),
  ("dow jones", "DIA"),
  ("dow", "DIA"),
  ("iwm", "IWM"),
  ("russell", "IWM"),
  ("voo", "VOO"),
  ("arkk", "ARKK"),
  ("ark", "ARKK")
]

/-- Python `COMPANY_TO_TICKER[k]` / `k in COMPANY_TO_TICKER` (dictionary
lookup, ticker_service.py:208–209 and 217). -/
def dictLookup (k : String) : Option String :=
  COMPANY_TO_TICKER.lookup k

/-- `COMPANY_TO_TICKER.keys()` (ticker_service.py:214). -/
def dictKeys : List String :=
  COMPANY_TO_TICKER.map Prod.fst

/-- difflib `_calculate_ratio(matches, length)`: `2.0 * matches / length`,
and `1.0` when `length` is zero.  The float is modelled as an exact
rational. -/
def calculateRatio (m t : Nat) : ℚ :=
  if t = 0 then 1 else 2 * (m : ℚ) / (t : ℚ)

/-- difflib `SequenceMatcher.real_quick_ratio()` for `a` against `b`:
`2 * min(len(a), len(b)) / (len(a) + len(b))`.  An upper bound on
`ratio()`. -/
def realQuickRatio (a b : String) : ℚ :=
  calculateRatio (min a.length b.length) (a.length + b.length)

/-- difflib `SequenceMatcher.quick_ratio()` for `a` against `b`: twice the
size of the character multiset intersection over the combined length.  An
upper bound on `ratio()`. -/
def quickRatio (a b : String) : ℚ :=
  calculateRatio (a.data.bagInter b.data).length (a.length + b.length)

/-- One step of `heapq.nlargest(1, scored)` on Python `(score, candidate)`
tuples: keep the running maximum in the lexicographic pair order. -/
def optMax (p : ℚ ×ₗ String) (acc : Option (ℚ ×ₗ String)) : Option (ℚ ×ₗ String) :=
  match acc with
  | none => some p
  | some q => some (max p q)

/-- `heapq.nlargest(1, scored)` (difflib get_close_matches, last two lines):
the greatest `(score, candidate)` pair, `none` on an empty list.  Python
compares tuples lexicographically — score first, then the candidate string —
so a tie on the score is broken towards the lexicographically greatest
candidate. -/
def bestScored (scored : List (ℚ ×ₗ String)) : Option (ℚ ×ₗ String) :=
  scored.foldr optMax none

/-- difflib `get_close_matches(word, possibilities, n=1, cutoff)` with the
underlying `SequenceMatcher.ratio` as the parameter `ratio` (the matcher is
`SequenceMatcher(None, x, word)`, so `ratio x word` scores candidate `x`):
keep each candidate whose `real_quick_ratio`, `quick_ratio` and `ratio` all
reach the cutoff, and return the candidate of the greatest `(score, x)`
pair.  With `n=1` the Python call returns a list of at most one string; that
list is an `Option` here. -/
def get_close_matches (ratio : String → String → ℚ) (word : String)
    (possibilities : List String) (cutoff : ℚ) : Option String :=
  let scored : List (ℚ ×ₗ String) := possibilities.filterMap fun x =>
    if cutoff ≤ realQuickRatio x word ∧ cutoff ≤ quickRatio x word ∧
        cutoff ≤ ratio x word then
      some (toLex (ratio x word, x))
    else none
  (bestScored scored).map fun p => (ofLex p).2

/-- `TickerService._ai_lookup_ticker` (ticker_service.py:239–283) given the
provider outcome: a raised exception returns `none` (lines 281–283); a raw
answer is stripped then upper-cased (line 271) and accepted only when
non-empty, different from `"UNKNOWN"` and at most 5 characters long
(line 274). -/
def ai_lookup_ticker (provider : Except Unit String) : Option String :=
  match provider with
  | Except.error _ => none
  | Except.ok raw =>
    let ticker := pyUpper (pyStrip raw)
    if ticker ≠ "" ∧ ticker ≠ "UNKNOWN" ∧ ticker.length ≤ 5 then some ticker
    else none

/-- `TickerService.resolve_ticker` (ticker_service.py:192–236), also
recording which strategy produced the result.  Control flow of the source:
clean the input (line 204), exact dictionary hit (208–211), fuzzy match at
cutoff 0.8 (214–219), AI lookup only when `len(input_str) > 2` (222–230,
any exception falling through), passthrough `input_str.upper().strip()`
(233–236).  In the fuzzy branch the matched name is a dictionary key, so the
`getD ""` default is never taken. -/
def resolve_ticker_result (ratio : String → String → ℚ)
    (provider : Except Unit String) (input_str : String) : String × Method :=
  let cleaned := pyLower (pyStrip input_str)
  match dictLookup cleaned with
  | some ticker => (ticker, Method.EXACT)
  | none =>
    match get_close_matches ratio cleaned dictKeys (4/5) with
    | some matched_name => ((dictLookup matched_name).getD "", Method.FUZZY)
    | none =>
      if input_str.length > 2 then
        match ai_lookup_ticker provider with
        | some ai_ticker => (ai_ticker, Method.AI)
        | none => (pyStrip (pyUpper input_str), Method.PASSTHROUGH)
      else (pyStrip (pyUpper input_str), Method.PASSTHROUGH)

/-- The string `TickerService.resolve_ticker` returns. -/
def resolve_ticker (ratio : String → String → ℚ)
    (provider : Except Unit String) (input_str : String) : String :=
  (resolve_ticker_result ratio provider input_str).1

/-- Python `pat in s` — substring containment. -/
def containsSub (s pat : List Char) : Bool :=
  s.tails.any fun t => pat.isPrefixOf t

/-- Python `pat in s` on strings. -/
def pyContains (s pat : String) : Bool :=
  containsSub s.data pat.data

/-- Python `s.count(pat)` for a non-empty `pat`: non-overlapping occurrences
scanned left to right.  The fuel argument starts at the length of `s` and
dominates it throughout, so the scan never runs out. -/
def pyCountAux (pat : List Char) : Nat → List Char → Nat
  | 0, _ => 0
  | _, [] => 0
  | fuel + 1, c :: rest =>
    if pat.isPrefixOf (c :: rest) then
      1 + pyCountAux pat fuel ((c :: rest).drop pat.length)
    else
      pyCountAux pat fuel rest

/-- Python `s.count(pat)` (`str.count` counts `len(s) + 1` occurrences of an
empty pattern). -/
def pyCount (s pat : String) : Nat :=
  if pat.data.isEmpty then s.length + 1
  else pyCountAux pat.data s.length s.data

/-- `AnalysisService._extract_rating` (analysis_service.py:224–243): explicit
bearish verdict or bolded marker, then explicit neutral verdict or bolded
marker, then mention counting, defaulting to `"NEUTRAL"`. -/
def extract_rating (analysis : String) : String :=
  let analysis_lower := pyLower analysis
  if pyContains analysis_lower "verdict: bearish" ||
      pyContains analysis_lower "**bearish**" then "BEARISH"
  else if pyContains analysis_lower "verdict: neutral" ||
      pyContains analysis_lower "**neutral**" then "NEUTRAL"
  else
    let bearish_count := pyCount analysis_lower "bearish"
    let neutral_count := pyCount analysis_lower "neutral"
    if bearish_count > neutral_count then "BEARISH"
    else if neutral_count > 0 then "NEUTRAL"
    else "NEUTRAL"

/-- Outcome of the ticker validation in the `analyze_stock` endpoint
(routes.py:59–66): HTTP 400, or proceed into the analysis pipeline with the
resolved ticker. -/
inductive AnalyzeOutcome : Type where
  | badRequest
  | proceed (ticker : String)
deriving DecidableEq

/-- The ticker-validation boundary of `analyze_stock` (routes.py:58–66):
resolve the query, reject with 400 when the resolved ticker is falsy (empty)
or longer than 10 characters, otherwise analyze that ticker.  The 503 branch
for a missing API key (routes.py:52–56) is configuration, not modelled. -/
def analyze_stock (ratio : String → String → ℚ)
    (provider : Except Unit String) (query : String) : AnalyzeOutcome :=
  let ticker := resolve_ticker ratio provider query
  if ticker = "" ∨ ticker.length > 10 then AnalyzeOutcome.badRequest
  else AnalyzeOutcome.proceed ticker

/-- Modelled from the spec (§4.3, §9): the resolver as an ordered list of
strategy attempts, first success wins, with a terminal fallback.  Used only
to state the refinement claim C1 against `resolve_ticker`. -/
def firstSuccess (attempts : List (Option String)) (fallback : String) : String :=
  match attempts with
  | [] => fallback
  | some t :: _ => t
  | none :: rest => firstSuccess rest fallback

/-- Spec §4.3 step 2: exact dictionary lookup of the normalized input. -/
def spec_exact (input : String) : Option String :=
  dictLookup (pyLower (pyStrip input))

/-- Spec §4.3 step 3: fuzzy lookup of the normalized input at cutoff 0.8,
then the dictionary ticker of the matched alias. -/
def spec_fuzzy (ratio : String → String → ℚ) (input : String) : Option String :=
  (get_close_matches ratio (pyLower (pyStrip input)) dictKeys (4/5)).map
    fun m => (dictLookup m).getD ""

/-- Spec §4.3 step 4: the AI attempt, gated on the original input being
longer than 2 characters. -/
def spec_ai (provider : Except Unit String) (input : String) : Option String :=
  if input.length > 2 then ai_lookup_ticker provider else none

/-- Spec §4.3: the five-state machine — normalize, exact, fuzzy, AI,
passthrough — as a first-success strategy chain. -/
def spec_resolve (ratio : String → String → ℚ)
    (provider : Except Unit String) (input : String) : String :=
  firstSuccess [spec_exact input, spec_fuzzy ratio input, spec_ai provider input]
    (pyStrip (pyUpper input))

/-! ### Helper lemmas about the fuzzy matcher and the resolver's branches -/

/-- Every difflib ratio value is non-negative. -/
theorem calculateRatio_nonneg (m t : Nat) : 0 ≤ calculateRatio m t := by
  unfold calculateRatio
  split
  · norm_num
  · positivity

/-- A similarity function that is constantly zero never reaches the 0.8
cutoff, so the fuzzy matcher returns nothing. -/
theorem get_close_matches_ratio_zero (word : String) (l : List String) :
    get_close_matches (fun _ _ => 0) word l (4/5) = none := by
  simp only [get_close_matches]
  rw [List.filterMap_eq_nil_iff.mpr]
  · rfl
  · intro x _
    rw [if_neg]
    rintro ⟨-, -, hc⟩
    norm_num at hc

/-- Against the empty word, every non-empty candidate has
`real_quick_ratio = 0`. -/
theorem realQuickRatio_empty (x : String) (hx : x.length ≠ 0) :
    realQuickRatio x "" = 0 := by
  simp [realQuickRatio, calculateRatio, hx]

/-- The fuzzy matcher finds nothing for the empty word among non-empty
candidates at cutoff 0.8, whatever the underlying ratio function is: the
`real_quick_ratio` prefilter already rejects every candidate. -/
theorem get_close_matches_empty_word (ratio : String → String → ℚ)
    (l : List String) (hl : ∀ x ∈ l, x.length ≠ 0) :
    get_close_matches ratio "" l (4/5) = none := by
  simp only [get_close_matches]
  rw [List.filterMap_eq_nil_iff.mpr]
  · rfl
  · intro x hx
    rw [if_neg]
    rintro ⟨hc, -, -⟩
    rw [realQuickRatio_empty x (hl x hx)] at hc
    norm_num at hc

/-- Branch lemma: an exact dictionary hit returns at line 211. -/
theorem resolve_result_exact (ratio : String → String → ℚ)
    (provider : Except Unit String) {input t : String}
    (h : dictLookup (pyLower (pyStrip input)) = some t) :
    resolve_ticker_result ratio provider input = (t, Method.EXACT) := by
  simp only [resolve_ticker_result, h]

/-- Branch lemma: a fuzzy hit after an exact miss returns at line 219. -/
theorem resolve_result_fuzzy (ratio : String → String → ℚ)
    (provider : Except Unit String) {input m : String}
    (h1 : dictLookup (pyLower (pyStrip input)) = none)
    (h2 : get_close_matches ratio (pyLower (pyStrip input)) dictKeys (4/5) = some m) :
    resolve_ticker_result ratio provider input = ((dictLookup m).getD "", Method.FUZZY) := by
  simp only [resolve_ticker_result, h1, h2]

/-- Branch lemma: an accepted AI answer after exact and fuzzy misses returns
at line 228. -/
theorem resolve_result_ai (ratio : String → String → ℚ)
    {provider : Except Unit String} {input t : String}
    (h1 : dictLookup (pyLower (pyStrip input)) = none)
    (h2 : get_close_matches ratio (pyLower (pyStrip input)) dictKeys (4/5) = none)
    (h3 : 2 < input.length) (h4 : ai_lookup_ticker provider = some t) :
    resolve_ticker_result ratio provider input = (t, Method.AI) := by
  simp only [resolve_ticker_result, h1, h2, h4, if_pos h3]

/-- Branch lemma: with exact and fuzzy missing and the AI step skipped or
missing, the resolver falls through to the passthrough at line 233. -/
theorem resolve_result_passthrough (ratio : String → String → ℚ)
    {provider : Except Unit String} {input : String}
    (h1 : dictLookup (pyLower (pyStrip input)) = none)
    (h2 : get_close_matches ratio (pyLower (pyStrip input)) dictKeys (4/5) = none)
    (h3 : ¬ 2 < input.length ∨ ai_lookup_ticker provider = none) :
    resolve_ticker_result ratio provider input = (pyStrip (pyUpper input), Method.PASSTHROUGH) := by
  rcases h3 with h3 | h3
  · simp only [resolve_ticker_result, h1, h2, if_neg h3]
  · by_cases hl : 2 < input.length
    · simp only [resolve_ticker_result, h1, h2, h3, if_pos hl]
    · simp only [resolve_ticker_result, h1, h2, if_neg hl]

/-! ### The claims -/

/-- C1: for every input (and every similarity function and provider
outcome), `resolve_ticker` evaluates its strategies strictly in the order
exact dictionary lookup, fuzzy match, AI lookup, passthrough, stopping at
the first strategy that succeeds: it coincides with the spec's first-success
strategy chain over the passthrough fallback, and it is a total function
returning a ticker string by construction. -/
theorem resolve_ticker_is_ordered_first_success
    (ratio : String → String → ℚ) (provider : Except Unit String)
    (input : String) :
    resolve_ticker ratio provider input = spec_resolve ratio provider input := by
  simp only [resolve_ticker, resolve_ticker_result, spec_resolve, spec_exact,
    spec_fuzzy, spec_ai]
  cases h1 : dictLookup (pyLower (pyStrip input)) with
  | some t => simp [firstSuccess]
  | none =>
    cases h2 : get_close_matches ratio (pyLower (pyStrip input)) dictKeys (4/5) with
    | some m => simp [firstSuccess]
    | none =>
      by_cases h3 : 2 < input.length
      · cases h4 : ai_lookup_ticker provider with
        | some t => simp [firstSuccess, h3, h4]
        | none => simp [firstSuccess, h3, h4]
      · simp [firstSuccess, h3]

/-- C2: every variant of a dictionary alias differing from it only in
letter case and surrounding whitespace (that is, every input whose
stripped-and-lowered form is that alias) resolves to exactly the
dictionary's ticker for the alias, by the EXACT strategy, for every
similarity function and provider outcome — so neither fuzzy, AI, nor
passthrough is consulted. -/
theorem resolve_ticker_exact_on_alias_variants
    (ratio : String → String → ℚ) (provider : Except Unit String)
    (input a t : String) (hvar : pyLower (pyStrip input) = a)
    (ha : dictLookup a = some t) :
    resolve_ticker_result ratio provider input = (t, Method.EXACT) :=
  resolve_result_exact ratio provider (hvar ▸ ha)

theorem resolve_ticker_exact_on_alias_variants_witness :
    resolve_ticker_result (fun _ _ => 0) (Except.error ()) "  GooGle " =
      ("GOOGL", Method.EXACT) :=
  resolve_ticker_exact_on_alias_variants (fun _ _ => 0) (Except.error ())
    "  GooGle " "google" "GOOGL" (by decide) (by decide)

/-- C4: a provider failure (any raised exception: timeout, network error,
malformed response) never propagates out of `resolve_ticker` — the resolver
is by construction a total function of the provider outcome, the exception
being caught inside `_ai_lookup_ticker` — and when the failing AI step is
reached (exact and fuzzy both missed), the failure is treated as a miss and
resolution terminates in the passthrough state with
`input.upper().strip()`. -/
theorem resolve_ticker_provider_error_passthrough
    (ratio : String → String → ℚ) (input : String)
    (h1 : dictLookup (pyLower (pyStrip input)) = none)
    (h2 : get_close_matches ratio (pyLower (pyStrip input)) dictKeys (4/5) = none) :
    resolve_ticker_result ratio (Except.error ()) input =
      (pyStrip (pyUpper input), Method.PASSTHROUGH) :=
  resolve_result_passthrough ratio h1 h2 (Or.inr rfl)

theorem resolve_ticker_provider_error_passthrough_witness :
    resolve_ticker_result (fun _ _ => 0) (Except.error ()) "zzz" =
      ("ZZZ", Method.PASSTHROUGH) :=
  (resolve_ticker_provider_error_passthrough (fun _ _ => 0) "zzz" (by decide)
    (get_close_matches_ratio_zero _ _)).trans (by decide)

/-- C7: the empty input resolves to the empty string by the PASSTHROUGH
strategy, for every similarity function and provider outcome: the exact
lookup misses, the fuzzy matcher produces no match at cutoff 0.8 for an
empty input (every dictionary key is non-empty), the AI step is skipped
because the input length is not greater than 2, and the resolver returns
the empty result instead of rejecting it. -/
theorem resolve_ticker_empty_input_passthrough
    (ratio : String → String → ℚ) (provider : Except Unit String) :
    resolve_ticker_result ratio provider "" = ("", Method.PASSTHROUGH) := by
  have h2 : get_close_matches ratio (pyLower (pyStrip "")) dictKeys (4/5) = none :=
    get_close_matches_empty_word ratio dictKeys (by decide)
  have h := @resolve_result_passthrough ratio provider ""
    (by decide) h2 (Or.inl (by decide))
  exact h.trans (by decide)

/-- Destructing a successful AI lookup: the provider answered, and the
accepted ticker is its answer stripped and upper-cased, non-empty, not
"UNKNOWN" and at most 5 characters. -/
theorem ai_lookup_ticker_some {provider : Except Unit String} {t : String}
    (h : ai_lookup_ticker provider = some t) :
    ∃ raw, provider = Except.ok raw ∧ t = pyUpper (pyStrip raw) ∧
      t ≠ "" ∧ t ≠ "UNKNOWN" ∧ t.length ≤ 5 := by
  cases provider with
  | error e => simp [ai_lookup_ticker] at h
  | ok raw =>
    refine ⟨raw, rfl, ?_⟩
    simp only [ai_lookup_ticker] at h
    split at h
    next hc =>
      injection h with h
      subst h
      exact ⟨rfl, hc.1, hc.2.1, hc.2.2⟩
    next hc => cases h

/-- C3: the resolution ends in the AI state exactly when exact and fuzzy
both miss, the original non-normalized input is longer than 2 characters,
and the AI lookup accepts; an `Except.ok` answer is accepted exactly when,
after stripping and upper-casing, it is non-empty, differs from "UNKNOWN"
and has at most 5 characters; and when the AI step yields nothing after
exact and fuzzy misses, resolution falls through to passthrough. -/
theorem resolve_ticker_ai_gate_and_acceptance
    (ratio : String → String → ℚ) (provider : Except Unit String) (input : String) :
    ((resolve_ticker_result ratio provider input).2 = Method.AI ↔
      dictLookup (pyLower (pyStrip input)) = none ∧
      get_close_matches ratio (pyLower (pyStrip input)) dictKeys (4/5) = none ∧
      2 < input.length ∧ (ai_lookup_ticker provider).isSome = true) ∧
    (∀ raw : String, (ai_lookup_ticker (Except.ok raw)).isSome = true ↔
      pyUpper (pyStrip raw) ≠ "" ∧ pyUpper (pyStrip raw) ≠ "UNKNOWN" ∧
      (pyUpper (pyStrip raw)).length ≤ 5) ∧
    (dictLookup (pyLower (pyStrip input)) = none →
      get_close_matches ratio (pyLower (pyStrip input)) dictKeys (4/5) = none →
      ai_lookup_ticker provider = none →
      resolve_ticker_result ratio provider input =
        (pyStrip (pyUpper input), Method.PASSTHROUGH)) := by
  refine ⟨⟨?_, ?_⟩, ?_, ?_⟩
  · intro hAI
    cases h1 : dictLookup (pyLower (pyStrip input)) with
    | some t =>
      rw [resolve_result_exact ratio provider h1] at hAI
      simp at hAI
    | none =>
      cases h2 : get_close_matches ratio (pyLower (pyStrip input)) dictKeys (4/5) with
      | some m =>
        rw [resolve_result_fuzzy ratio provider h1 h2] at hAI
        simp at hAI
      | none =>
        by_cases h3 : 2 < input.length
        · cases h4 : ai_lookup_ticker provider with
          | some t => exact ⟨rfl, rfl, h3, by simp⟩
          | none =>
            rw [resolve_result_passthrough ratio h1 h2 (Or.inr h4)] at hAI
            simp at hAI
        · rw [resolve_result_passthrough ratio h1 h2 (Or.inl h3)] at hAI
          simp at hAI
  · rintro ⟨h1, h2, h3, h4⟩
    obtain ⟨t, h4⟩ := Option.isSome_iff_exists.mp h4
    rw [resolve_result_ai ratio h1 h2 h3 h4]
  · intro raw
    simp only [ai_lookup_ticker]
    split
    next hc => exact iff_of_true rfl hc
    next hc => exact iff_of_false (by simp) hc
  · intro h1 h2 h4
    exact resolve_result_passthrough ratio h1 h2 (Or.inr h4)

/-- The running maximum of Python tuple comparison is left-commutative. -/
theorem optMax_left_comm (p q : ℚ ×ₗ String) (acc : Option (ℚ ×ₗ String)) :
    optMax p (optMax q acc) = optMax q (optMax p acc) := by
  cases acc with
  | none => simp [optMax, max_comm]
  | some r => simp [optMax, max_left_comm]

/-- The greatest scored pair does not depend on the order of the scored
list. -/
theorem bestScored_perm {l l' : List (ℚ ×ₗ String)} (h : l.Perm l') :
    bestScored l = bestScored l' := by
  induction h with
  | nil => rfl
  | cons x _ ih =>
    simp only [bestScored, List.foldr_cons] at *
    rw [ih]
  | swap x y l => exact optMax_left_comm _ _ _
  | trans _ _ ih1 ih2 => exact ih1.trans ih2

/-- C5: the fuzzy matcher breaks score ties through the linear order on
`(score, candidate)` pairs — lexicographic on the candidate string at equal
scores — so for every input, cutoff, similarity function and every
permutation of the candidate list, the selected candidate is the same: the
choice is not insertion-order-dependent. -/
theorem get_close_matches_perm_invariant (ratio : String → String → ℚ)
    (word : String) (cutoff : ℚ) {l l' : List String} (h : l.Perm l') :
    get_close_matches ratio word l cutoff = get_close_matches ratio word l' cutoff := by
  simp only [get_close_matches]
  rw [bestScored_perm (h.filterMap _)]

/-- `List.filterMap` over a two-element list whose images are both hits. -/
theorem filterMap_pair_some {α β : Type} (f : α → Option β) (a b : α) (pa pb : β)
    (ha : f a = some pa) (hb : f b = some pb) : List.filterMap f [a, b] = [pa, pb] := by
  rw [List.filterMap_cons_some ha, List.filterMap_cons_some hb, List.filterMap_nil]

theorem get_close_matches_perm_invariant_witness :
    get_close_matches (fun _ _ => 1) "w" ["x", "y"] 0 =
      get_close_matches (fun _ _ => 1) "w" ["y", "x"] 0 ∧
    get_close_matches (fun _ _ => 1) "w" ["y", "x"] 0 = some "y" := by
  have hcond : ∀ x : String, (0:ℚ) ≤ realQuickRatio x "w" ∧ (0:ℚ) ≤ quickRatio x "w" ∧
      (0:ℚ) ≤ (1:ℚ) :=
    fun x => ⟨calculateRatio_nonneg _ _, calculateRatio_nonneg _ _, by norm_num⟩
  constructor
  · exact get_close_matches_perm_invariant (fun _ _ => 1) "w" 0 (List.Perm.swap "y" "x" [])
  · have hxy : ("x" : String) < "y" := by
      rw [String.lt_iff_toList_lt]
      exact List.Lex.rel (show ('x' : Char) < 'y' by decide)
    have e1 : get_close_matches (fun _ _ => 1) "w" ["y", "x"] 0 =
        (bestScored (List.filterMap (fun x =>
          if (0:ℚ) ≤ realQuickRatio x "w" ∧ (0:ℚ) ≤ quickRatio x "w" ∧ (0:ℚ) ≤ 1 then
            some (toLex ((1:ℚ), x)) else none) ["y", "x"])).map (fun p => (ofLex p).2) := rfl
    have f_eq : ∀ z : String, (fun x =>
        if (0:ℚ) ≤ realQuickRatio x "w" ∧ (0:ℚ) ≤ quickRatio x "w" ∧ (0:ℚ) ≤ 1 then
          some (toLex ((1:ℚ), x)) else none) z = some (toLex ((1:ℚ), z)) := by
      intro z
      show (if (0:ℚ) ≤ realQuickRatio z "w" ∧ (0:ℚ) ≤ quickRatio z "w" ∧ (0:ℚ) ≤ 1 then
          some (toLex ((1:ℚ), z)) else none) = some (toLex ((1:ℚ), z))
      exact if_pos (hcond z)
    rw [e1, filterMap_pair_some _ "y" "x" _ _ (f_eq "y") (f_eq "x")]
    show (some (max (toLex ((1:ℚ), "y")) (toLex ((1:ℚ), "x")))).map (fun p => (ofLex p).2) = some "y"
    rw [max_eq_left (show toLex ((1:ℚ), "x") ≤ toLex ((1:ℚ), "y") from
      (Prod.Lex.le_iff _ _).mpr (Or.inr ⟨rfl, le_of_lt hxy⟩))]
    rfl

/-- C6: `extract_rating` applies its checks in order — explicit bearish
verdict or bolded bearish marker first, then explicit neutral verdict or
bolded neutral marker, then the comparison of case-insensitive mention
counts, with zero counts of both words defaulting to NEUTRAL. -/
theorem extract_rating_check_order (text : String) :
    ((pyContains (pyLower text) "verdict: bearish" = true ∨
        pyContains (pyLower text) "**bearish**" = true) →
      extract_rating text = "BEARISH") ∧
    (pyContains (pyLower text) "verdict: bearish" = false →
      pyContains (pyLower text) "**bearish**" = false →
      (pyContains (pyLower text) "verdict: neutral" = true ∨
        pyContains (pyLower text) "**neutral**" = true) →
      extract_rating text = "NEUTRAL") ∧
    (pyContains (pyLower text) "verdict: bearish" = false →
      pyContains (pyLower text) "**bearish**" = false →
      pyContains (pyLower text) "verdict: neutral" = false →
      pyContains (pyLower text) "**neutral**" = false →
      pyCount (pyLower text) "bearish" > pyCount (pyLower text) "neutral" →
      extract_rating text = "BEARISH") ∧
    (pyContains (pyLower text) "verdict: bearish" = false →
      pyContains (pyLower text) "**bearish**" = false →
      pyContains (pyLower text) "verdict: neutral" = false →
      pyContains (pyLower text) "**neutral**" = false →
      pyCount (pyLower text) "neutral" > pyCount (pyLower text) "bearish" →
      extract_rating text = "NEUTRAL") ∧
    (pyContains (pyLower text) "verdict: bearish" = false →
      pyContains (pyLower text) "**bearish**" = false →
      pyContains (pyLower text) "verdict: neutral" = false →
      pyContains (pyLower text) "**neutral**" = false →
      pyCount (pyLower text) "bearish" = 0 →
      pyCount (pyLower text) "neutral" = 0 →
      extract_rating text = "NEUTRAL") := by
  refine ⟨?_, ?_, ?_, ?_, ?_⟩
  · intro h
    rcases h with h | h <;> simp [extract_rating, h]
  · intro h1 h2 h
    rcases h with h | h <;> simp [extract_rating, h1, h2, h]
  · intro h1 h2 h3 h4 hc
    simp [extract_rating, h1, h2, h3, h4, hc]
  · intro h1 h2 h3 h4 hc
    have hng : ¬ pyCount (pyLower text) "bearish" > pyCount (pyLower text) "neutral" := by
      omega
    have hn : 0 < pyCount (pyLower text) "neutral" := by omega
    simp [extract_rating, h1, h2, h3, h4, hng, hn]
  · intro h1 h2 h3 h4 hb hn
    simp [extract_rating, h1, h2, h3, h4, hb, hn]

theorem extract_rating_check_order_witness :
    extract_rating "Verdict: BEARISH overall" = "BEARISH" ∧
    extract_rating "**Neutral** stance" = "NEUTRAL" ∧
    extract_rating "twice bearish, bearish, once neutral" = "BEARISH" ∧
    extract_rating "twice neutral, neutral, once bearish" = "NEUTRAL" ∧
    extract_rating "no signal words at all" = "NEUTRAL" :=
  ⟨(extract_rating_check_order "Verdict: BEARISH overall").1 (Or.inl (by decide)),
   (extract_rating_check_order "**Neutral** stance").2.1 (by decide) (by decide)
     (Or.inr (by decide)),
   (extract_rating_check_order "twice bearish, bearish, once neutral").2.2.1
     (by decide) (by decide) (by decide) (by decide) (by decide),
   (extract_rating_check_order "twice neutral, neutral, once bearish").2.2.2.1
     (by decide) (by decide) (by decide) (by decide) (by decide),
   (extract_rating_check_order "no signal words at all").2.2.2.2
     (by decide) (by decide) (by decide) (by decide) (by decide) (by decide)⟩

/-- C9: without any explicit verdict or bolded marker, equal mention counts
of "bearish" and "neutral" — including equal positive counts — yield
NEUTRAL: the tie goes to NEUTRAL. -/
theorem extract_rating_tie_neutral (text : String)
    (h1 : pyContains (pyLower text) "verdict: bearish" = false)
    (h2 : pyContains (pyLower text) "**bearish**" = false)
    (h3 : pyContains (pyLower text) "verdict: neutral" = false)
    (h4 : pyContains (pyLower text) "**neutral**" = false)
    (hc : pyCount (pyLower text) "bearish" = pyCount (pyLower text) "neutral") :
    extract_rating text = "NEUTRAL" := by
  have hng : ¬ pyCount (pyLower text) "bearish" > pyCount (pyLower text) "neutral" := by
    omega
  by_cases hn : 0 < pyCount (pyLower text) "neutral"
  · simp [extract_rating, h1, h2, h3, h4, hng, hn]
  · simp [extract_rating, h1, h2, h3, h4, hng, hn]

theorem extract_rating_tie_neutral_witness :
    extract_rating "one bearish view, one neutral view" = "NEUTRAL" :=
  extract_rating_tie_neutral "one bearish view, one neutral view"
    (by decide) (by decide) (by decide) (by decide) (by decide)

/-- C8: the analyze endpoint answers HTTP 400 exactly when the resolved
ticker is empty or longer than 10 characters, and otherwise proceeds with
that resolved ticker; the length validation lives only at this boundary —
the resolver itself (a total function, see C1/C7) returns empty or overlong
strings without rejecting them. -/
theorem analyze_stock_rejects_iff (ratio : String → String → ℚ)
    (provider : Except Unit String) (query : String) :
    (analyze_stock ratio provider query = AnalyzeOutcome.badRequest ↔
      resolve_ticker ratio provider query = "" ∨
        (resolve_ticker ratio provider query).length > 10) ∧
    (analyze_stock ratio provider query ≠ AnalyzeOutcome.badRequest →
      analyze_stock ratio provider query =
        AnalyzeOutcome.proceed (resolve_ticker ratio provider query)) := by
  constructor
  · simp only [analyze_stock]
    split
    next hc => exact iff_of_true rfl hc
    next hc => exact iff_of_false (by simp) hc
  · intro hne
    simp only [analyze_stock] at hne ⊢
    by_cases hc : resolve_ticker ratio provider query = "" ∨
        (resolve_ticker ratio provider query).length > 10
    · rw [if_pos hc] at hne
      exact absurd rfl hne
    · rw [if_neg hc]

/-- `Char.ofNat` of a valid code point keeps the code point. -/
theorem toNat_ofNat_valid (n : Nat) (h : n.isValidChar) : (Char.ofNat n).toNat = n := by
  rw [Char.ofNat, dif_pos h]
  rfl

/-- `Char.isLower` through the code point. -/
theorem isLower_iff (c : Char) : c.isLower = true ↔ 97 ≤ c.toNat ∧ c.toNat ≤ 122 := by
  simp [Char.isLower, UInt32.le_def, BitVec.le_def, Char.toNat, UInt32.toNat]

/-- Upper-casing a character never yields an ASCII lower-case letter. -/
theorem isLower_toUpper (c : Char) : (Char.toUpper c).isLower = false := by
  rw [Char.toUpper]
  split
  next h =>
    have hv : Nat.isValidChar (c.toNat - 32) := Or.inl (by omega)
    rw [Bool.eq_false_iff]
    intro hlow
    have := (isLower_iff _).mp hlow
    rw [toNat_ofNat_valid _ hv] at this
    omega
  next h =>
    rw [Bool.eq_false_iff]
    intro hlow
    exact h ((isLower_iff _).mp hlow)

/-- No character of an upper-cased string is an ASCII lower-case letter. -/
theorem pyUpper_no_lower (s : String) : ∀ c ∈ (pyUpper s).data, c.isLower = false := by
  intro c hc
  obtain ⟨a, -, rfl⟩ := List.mem_map.mp hc
  exact isLower_toUpper a

/-- C10: whenever the resolver returns via the AI strategy, the returned
ticker is the provider's raw answer stripped of surrounding whitespace and
upper-cased, hence a non-empty string of at most 5 characters, distinct
from "UNKNOWN", containing no lower-case ASCII letter — even when the
provider answered in lower case or with surrounding whitespace. -/
theorem resolve_ticker_ai_result_shape (ratio : String → String → ℚ)
    (provider : Except Unit String) (input t : String)
    (h : resolve_ticker_result ratio provider input = (t, Method.AI)) :
    ∃ raw, provider = Except.ok raw ∧ t = pyUpper (pyStrip raw) ∧
      t ≠ "" ∧ t ≠ "UNKNOWN" ∧ t.length ≤ 5 ∧ (∀ c ∈ t.data, c.isLower = false) := by
  have hai : ai_lookup_ticker provider = some t := by
    cases h1 : dictLookup (pyLower (pyStrip input)) with
    | some t2 =>
      rw [resolve_result_exact ratio provider h1] at h
      simp at h
    | none =>
      cases h2 : get_close_matches ratio (pyLower (pyStrip input)) dictKeys (4/5) with
      | some m =>
        rw [resolve_result_fuzzy ratio provider h1 h2] at h
        simp at h
      | none =>
        by_cases h3 : 2 < input.length
        · cases h4 : ai_lookup_ticker provider with
          | some t2 =>
            rw [resolve_result_ai ratio h1 h2 h3 h4] at h
            obtain ⟨ht2, -⟩ := (Prod.mk.injEq _ _ _ _).mp h
            exact congrArg some ht2
          | none =>
            rw [resolve_result_passthrough ratio h1 h2 (Or.inr h4)] at h
            simp at h
        · rw [resolve_result_passthrough ratio h1 h2 (Or.inl h3)] at h
          simp at h
  obtain ⟨raw, hp, ht, hne, hnu, hlen⟩ := ai_lookup_ticker_some hai
  refine ⟨raw, hp, ht, hne, hnu, hlen, ?_⟩
  rw [ht]
  exact pyUpper_no_lower (pyStrip raw)

theorem resolve_ticker_ai_result_shape_witness :
    (resolve_ticker_result (fun _ _ => 0) (Except.ok " nvda ") "Zyxtech" =
      ("NVDA", Method.AI)) ∧
    ∃ raw, (Except.ok " nvda " : Except Unit String) = Except.ok raw ∧
      "NVDA" = pyUpper (pyStrip raw) ∧ "NVDA" ≠ "" ∧ "NVDA" ≠ "UNKNOWN" ∧
      String.length "NVDA" ≤ 5 ∧ (∀ c ∈ "NVDA".data, c.isLower = false) := by
  have hai : ai_lookup_ticker (Except.ok " nvda " : Except Unit String) =
      some "NVDA" := by decide
  have hres : resolve_ticker_result (fun _ _ => 0) (Except.ok " nvda ") "Zyxtech" =
      ("NVDA", Method.AI) :=
    @resolve_result_ai (fun _ _ => 0) (Except.ok " nvda ") "Zyxtech" "NVDA"
      (by decide) (get_close_matches_ratio_zero _ _) (by decide) hai
  exact ⟨hres, resolve_ticker_ai_result_shape (fun _ _ => 0) (Except.ok " nvda ")
    "Zyxtech" "NVDA" hres⟩
